import Mathlib

/-!
# Verification of the sip-party transport and transaction coordination layer

Shallow embedding, in Lean 4, of the parts of the `sip-party` repository that
the specification's claims are about:

* `sip/retrythread.py` — the timer/IO reactor's retry-time list
  (`RetryThread.addRetryTime`).
* `sipparty/sip/siptransport.py` — the SIP message demultiplexer
  (`SIPTransport.sipByteConsumer`, `consumeMessage`,
  `consumeDialogCreatingMessage`, `consumeInDialogMessage`,
  `addDialogHandlerForAOR`, `removeDialogHandlerForAOR`).
* `sipparty/sip/transaction/manager.py` — the transaction coordinator
  (`TransactionManager`).
* `sipparty/transport.py` — the socket resource manager's cache
  (`Transport.yield_dict_path`, `find_cached_object`, `listen_for_me`,
  `release_listen_address`, and the find-tuple construction).

Python byte strings are embedded as `List Nat`, dictionaries as
insertion-ordered association lists (faithful to CPython dict semantics:
lookup finds the entry, assignment to an existing key replaces it in place,
assignment to a new key appends), and raised exceptions as `Except` errors.
Code of the repository that is not part of the given sources (the message
parser, the `Retainable` mixin, the dialog-ID constructors, and
`TransactionManager.new_transaction_for_request`) is modelled from the
specification; each such definition carries a doc comment starting
`Modelled from the spec:`.
-/

namespace SipParty

/-! ## Timer/IO reactor: the retry-time list (`sip/retrythread.py`)

`RetryThread` keeps its pending deadlines in `self._rthr_retryTimes`.  The
only mutator is `addRetryTime`, a linear scan-and-insert that walks the list
in order, breaks before the first strictly larger element, and returns
without changing anything if an equal element is encountered first.
-/

/-- Embedding of `RetryThread.addRetryTime` (retrythread.py:153-173): walk the
retry-time list in order; insert `ctime` before the first strictly larger
element; if an equal element is met first, return the list unchanged; if the
scan runs off the end, append. -/
def addRetryTime : List Int → Int → List Int
  | [], ctime => [ctime]
  | t :: rest, ctime =>
    if ctime < t then ctime :: t :: rest
    else if ctime = t then t :: rest
    else t :: addRetryTime rest ctime

/-- The retry-time list that results from a sequence of `addRetryTime` calls,
starting from the empty list set up in `RetryThread.__init__`. -/
def retryTimesAfter (calls : List Int) : List Int :=
  calls.foldl addRetryTime []

/-! ## Python dictionaries

CPython dictionaries preserve insertion order; looking up a key finds its
entry, assigning to an existing key replaces the value in place, assigning a
fresh key appends, and `del` removes the entry.  They are embedded as
association lists with exactly those operations.
-/

/-- `d[k]` / `d.get(k)`: the value of the first (only) entry with key `k`. -/
def dictGet {κ α : Type} [DecidableEq κ] : List (κ × α) → κ → Option α
  | [], _ => none
  | e :: rest, k => if e.1 = k then some e.2 else dictGet rest k

/-- `d[k] = v`: replace in place when the key exists, append otherwise. -/
def dictSet {κ α : Type} [DecidableEq κ] : List (κ × α) → κ → α → List (κ × α)
  | [], k, v => [(k, v)]
  | e :: rest, k, v => if e.1 = k then (k, v) :: rest else e :: dictSet rest k v

/-- `del d[k]`: drop the entry with key `k` (a no-op when absent). -/
def dictDel {κ α : Type} [DecidableEq κ] : List (κ × α) → κ → List (κ × α)
  | [], _ => []
  | e :: rest, k => if e.1 = k then rest else e :: dictDel rest k

/-! ## SIP message demultiplexer (`sipparty/sip/siptransport.py`)

Parsed messages expose the headers the demultiplexer consults.  Python
exceptions raised by the demultiplexer are embedded as `PyErr` values; a
method that can raise returns its (possibly partially mutated) state
together with an `Except PyErr` outcome, so that mutations made before a
`raise` persist, as they do in the source.
-/

/-- `msg.type`: the method name of a request, or the status code of a
response. -/
inductive MsgType where
  | request (method : String)
  | response (code : Nat)
deriving DecidableEq, Repr

/-- A parsed SIP message, with the header values the demultiplexer and the
transaction coordinator read.  `fromTag`/`toTag` are `none` when the
corresponding `parameters` object has no `tag` attribute; `callId` is `""`
both when the Call-ID header is absent and when its value is empty (the two
cases the source's guard merges).  `branch` and `cseqMethod` are the Via
branch parameter and the CSeq method, used for transaction keys. -/
structure Msg where
  type : MsgType
  fromTag : Option String
  toTag : Option String
  callId : String
  toAOR : String
  branch : String
  cseqMethod : String
  parsedBytes : Nat
deriving DecidableEq, Repr

/-- `msg.isresponse()`. -/
def Msg.isresponse (m : Msg) : Bool :=
  match m.type with
  | .response _ => true
  | .request _ => false

/-- `msg.isrequest()`. -/
def Msg.isrequest (m : Msg) : Bool := !m.isresponse

/-- Embedded Python exceptions. -/
inductive PyErr where
  | keyError (text : String)
  | assertionError
  | attributeError (name : String)
  | parseError
  | socketInUseError
  | indexError
deriving DecidableEq, Repr

/-- Modelled from the spec: `prot.EstablishedDialogID` (sipparty/sip/prot.py
is not among the given sources).  §3: "`EstablishedDialogID` = (Call-ID,
local-tag, remote-tag)". -/
structure EstablishedDialogID where
  callId : String
  localTag : String
  remoteTag : String
deriving DecidableEq, Repr

/-- Modelled from the spec: `ProvisionalDialogID` (prot.py is not among the
given sources).  §3 describes it as the dialog identity before the remote
tag is known, "conceptually local tag only"; it is the Call-ID plus the
local tag. -/
structure ProvisionalDialogID where
  callId : String
  localTag : String
deriving DecidableEq, Repr

/-- Modelled from the spec: `prot.ProvisionalDialogIDFromEstablishedID`
(prot.py is not among the given sources): forget the remote tag. -/
def ProvisionalDialogIDFromEstablishedID (d : EstablishedDialogID) :
    ProvisionalDialogID :=
  ⟨d.callId, d.localTag⟩

/-- A Dialog as seen by the demultiplexer (§6 boundary): an identity (to
express "routed to the same dialog object"), a `provisionalDialogID`
attribute, and an optional `dialogID` attribute whose presence signals
"established". -/
structure Dialog where
  id : Nat
  provisionalDialogID : ProvisionalDialogID
  dialogID : Option EstablishedDialogID

/-- An observable `dlg.consume_message(msg)` call: which dialog consumed
which message. -/
abbrev Event := Nat × Msg

/-- An AOR handler's `new_dialog_from_request` (§6 boundary): returns a
dialog or `none` to reject. -/
abbrev AORHandler := Msg → Option Dialog

/-- The `SIPTransport` instance state the demultiplexer reads and writes:
`_sptr_messages`, the provisional and established dialog maps, and the
AOR handler map. -/
structure SIPTransport where
  messages : List Msg
  provisionalDialogs : List (ProvisionalDialogID × Dialog)
  establishedDialogs : List (EstablishedDialogID × Dialog)
  dialogHandlers : List (String × AORHandler)

/-- Embedding of `SIPTransport.addDialogHandlerForAOR`
(siptransport.py:104-120): raise `KeyError` if the AOR is already claimed,
otherwise record the handler.  (The source first raises `TypeError` for a
non-`AORHandler` argument; in the embedding every handler is well typed.) -/
def addDialogHandlerForAOR (st : SIPTransport) (aor : String)
    (handler : AORHandler) : SIPTransport × Except PyErr Unit :=
  if (dictGet st.dialogHandlers aor).isSome then
    (st, .error (.keyError "Handler already registered for AOR"))
  else
    ({ st with dialogHandlers := dictSet st.dialogHandlers aor handler },
      .ok ())

/-- Embedding of `SIPTransport.removeDialogHandlerForAOR`
(siptransport.py:122-130): raise `KeyError` if no handler is registered for
the AOR, otherwise delete the entry. -/
def removeDialogHandlerForAOR (st : SIPTransport) (aor : String) :
    SIPTransport × Except PyErr Unit :=
  if (dictGet st.dialogHandlers aor).isNone then
    (st, .error (.keyError "AOR handler not registered for AOR"))
  else
    ({ st with dialogHandlers := dictDel st.dialogHandlers aor }, .ok ())

/-- Embedding of `SIPTransport.updateDialogGrouping`
(siptransport.py:132-151): a dialog with a `dialogID` is moved out of the
provisional map (if present) and inserted into the established map (if not
already there); a dialog without one is inserted into the provisional map if
new. -/
def updateDialogGrouping (st : SIPTransport) (dlg : Dialog) : SIPTransport :=
  let pdid := dlg.provisionalDialogID
  match dlg.dialogID with
  | some did =>
    let pds :=
      if (dictGet st.provisionalDialogs pdid).isSome then
        dictDel st.provisionalDialogs pdid
      else st.provisionalDialogs
    let eds :=
      if (dictGet st.establishedDialogs did).isNone then
        dictSet st.establishedDialogs did dlg
      else st.establishedDialogs
    { st with provisionalDialogs := pds, establishedDialogs := eds }
  | none =>
    if (dictGet st.provisionalDialogs pdid).isSome then st
    else
      { st with
        provisionalDialogs := dictSet st.provisionalDialogs pdid dlg }

/-- Embedding of `SIPTransport.consumeDialogCreatingMessage`
(siptransport.py:269-288): look up the handler by the To-header AOR; drop if
none registered; otherwise ask it for a new dialog; drop if it rejects;
otherwise the dialog consumes the message and the dialog grouping is
updated. -/
def consumeDialogCreatingMessage (st : SIPTransport) (msg : Msg) :
    SIPTransport × List Event × Except PyErr Unit :=
  match dictGet st.dialogHandlers msg.toAOR with
  | none => (st, [], .ok ())
  | some hdlr =>
    match hdlr msg with
    | none => (st, [], .ok ())
    | some dlg => (updateDialogGrouping st dlg, [(dlg.id, msg)], .ok ())

/-- Embedding of `SIPTransport.consumeInDialogMessage`
(siptransport.py:290-323): compute the established dialog ID — for a
response (Call-ID, From-tag, To-tag), for a request (Call-ID, To-tag,
From-tag) — and forward to the established dialog under it, else to the
provisional dialog under the corresponding provisional ID, else hit the
`assert 0` at line 320 (an `AssertionError`, which the caller catches).
The tag reads use `.getD ""` only because the callers guard on both tags
being present. -/
def consumeInDialogMessage (st : SIPTransport) (msg : Msg) :
    SIPTransport × List Event × Except PyErr Unit :=
  let did : EstablishedDialogID :=
    if msg.isresponse then
      ⟨msg.callId, msg.fromTag.getD "", msg.toTag.getD ""⟩
    else
      ⟨msg.callId, msg.toTag.getD "", msg.fromTag.getD ""⟩
  match dictGet st.establishedDialogs did with
  | some dlg => (st, [(dlg.id, msg)], .ok ())
  | none =>
    match dictGet st.provisionalDialogs
        (ProvisionalDialogIDFromEstablishedID did) with
    | some dlg => (st, [(dlg.id, msg)], .ok ())
    | none => (st, [], .error .assertionError)

/-- Embedding of `SIPTransport.consumeMessage` (siptransport.py:246-267):
record the message, stop at ACKs, discard messages without a From tag or
without a non-empty Call-ID, and dispatch on the presence of a To tag. -/
def consumeMessage (st : SIPTransport) (msg : Msg) :
    SIPTransport × List Event × Except PyErr Unit :=
  let st := { st with messages := st.messages ++ [msg] }
  if msg.type = .request "ACK" then (st, [], .ok ())
  else if msg.fromTag = none then (st, [], .ok ())
  else if msg.callId = "" then (st, [], .ok ())
  else if msg.toTag = none then consumeDialogCreatingMessage st msg
  else consumeInDialogMessage st msg

/-! ### Byte-level framing -/

/-- The header-terminating blank line `b'\r\n\r\n'`. -/
def eoleol : List Nat := [13, 10, 13, 10]

/-- `data.find(b'\r\n\r\n')`: index of the first occurrence, `none` when
absent (the source's `-1`). -/
def eoleolIndex : List Nat → Option Nat
  | [] => none
  | a :: rest =>
    if (a :: rest).take 4 = eoleol then some 0
    else (eoleolIndex rest).map (· + 1)

/-- `eoleol` occurs in `l` at offset `j`. -/
def eoleolAt (l : List Nat) (j : Nat) : Prop :=
  (l.drop j).take 4 = eoleol

/-- Modelled from the spec: `Message.Parse` (sipparty/sip/message.py is not
among the given sources).  §6: `Message.parse(bytes) → (message,
bytesConsumed)`, failing with a parse error on malformed input; §4.3: this
excerpt frames solely on the header-terminating blank line, so the parsed
message is determined by the bytes before the first `CRLF CRLF` and
`parsedBytes` is the offset just past it.  The header decoder proper is
abstracted as the parameter `decode`, applied to the bytes before the blank
line; `decode` returning `none` is a `ParseError`. -/
def MessageParse (decode : List Nat → Option Msg) (data : List Nat) :
    Except PyErr (Msg × Nat) :=
  match eoleolIndex data with
  | none => .error .parseError
  | some i =>
    match decode (data.take i) with
    | none => .error .parseError
    | some m => .ok ({ m with parsedBytes := i + 4 }, i + 4)

/-- What one `sipByteConsumer` call did: the transport state afterwards, the
dialog-consumption events, the byte strings handed to `Message.Parse`
(observability for the re-attempt question), and the returned consumed-byte
count. -/
structure ConsumeResult where
  st : SIPTransport
  events : List Event
  parseAttempts : List (List Nat)
  consumed : Nat

/-- Embedding of `SIPTransport.sipByteConsumer` (siptransport.py:216-244):
no `CRLF CRLF` in the data means no possibility of a full message, so
consume 0; otherwise parse, and on `ParseError` log and consume 0; otherwise
consume the message — any exception from `consumeMessage` being caught and
logged — and return `msg.parsedBytes`. -/
def sipByteConsumer (decode : List Nat → Option Msg) (st : SIPTransport)
    (data : List Nat) : Except PyErr ConsumeResult :=
  match eoleolIndex data with
  | none => .ok ⟨st, [], [], 0⟩
  | some _ =>
    match MessageParse decode data with
    | .error .parseError => .ok ⟨st, [], [data], 0⟩
    | .error e => .error e
    | .ok (msg, _) =>
      let (st', evs, _res) := consumeMessage st msg
      .ok ⟨st', evs, [data], msg.parsedBytes⟩

/-- Embedding of `Transport.receivedData` (transport.py:1081-1100).  Its
very first statement is `assert 0` (transport.py:1082): the method sits in
the source's "OLD DEPRECATED METHOD" section and raises `AssertionError` on
every call, before the buffer-extension and consumption loop below it can
run (`processReceivedData`, the loop's consumer-invoking half, likewise
opens with `assert 0` at transport.py:1103).  The buffering protocol is
therefore dead code: no call ever retains bytes, and the embedding reflects
that by raising unconditionally.  The parameters mirror the source's
signature (connection buffer plus newly arrived data). -/
def receivedData (_decode : List Nat → Option Msg) (_st : SIPTransport)
    (_buf _data : List Nat) :
    Except PyErr (SIPTransport × List Nat × List Event × Nat) :=
  .error .assertionError

/-- Embedding of the live delivery path
`SocketProxy._readable_socket_selected` (transport.py:562-589): the
datagram just read is handed to the data callback — for a `SIPTransport`,
`sipByteConsumer` — as `dc(self, addr, data)`, and the callback's return
value (the consumed-byte count) is **discarded**.  No component stores the
unconsumed bytes: the transport state has no byte buffer, so every call
presents the consumer with exactly the newly arrived datagram and nothing
else.  (The connected-socket-proxy bookkeeping for unconnected sockets at
transport.py:572-583 does not touch the demultiplexer state modelled
here.) -/
def readable_socket_delivery (decode : List Nat → Option Msg)
    (st : SIPTransport) (data : List Nat) : Except PyErr SIPTransport :=
  (sipByteConsumer decode st data).map ConsumeResult.st

/-! ## Transaction coordinator (`sipparty/sip/transaction/manager.py`)

The transaction state machines themselves are external collaborators (§2);
the coordinator only creates, looks up and forwards to them, so a
transaction is embedded as its variant tag.
-/

/-- The transaction variants (§3): client and server, INVITE and non-INVITE,
plus the one-shot variant. -/
inductive Transaction where
  | inviteClient
  | nonInviteClient
  | inviteServer
  | nonInviteServer
  | oneShot
deriving DecidableEq, Repr

/-- `prot.TransactionID` as built by
`TransactionManager.transaction_key_for_message` (manager.py:34-45):
(transaction type, Via branch parameter value, CSeq method). -/
structure TransactionID where
  ttype : String
  branch : String
  method : String
deriving DecidableEq, Repr

/-- `msg.type` rendered as Python renders it into the enriched `KeyError`
text (`'%s; message type %s'`). -/
def MsgType.typeStr : MsgType → String
  | .request m => m
  | .response c => toString c

/-- Embedding of the classmethod
`TransactionManager.transaction_key_for_message` (manager.py:34-45). -/
def transaction_key_for_message (ttype : String) (msg : Msg) : TransactionID :=
  ⟨ttype, msg.branch, msg.cseqMethod⟩

/-- The `TransactionManager` state (manager.py:47-54): the active and the
terminated transaction tables. -/
structure TransactionManager where
  transactions : List (TransactionID × Transaction)
  terminated_transactions : List (TransactionID × Transaction)
deriving Repr

/-- Embedding of `TransactionManager._new_transaction_client`
(manager.py:141-159): assert the message is a request, then select the
client variant by method (INVITE → Invite-Client, else NonInvite-Client). -/
def new_transaction_client_method (msg : Msg) : Except PyErr Transaction :=
  if !msg.isrequest then .error .assertionError
  else if msg.type = .request "INVITE" then .ok .inviteClient
  else .ok .nonInviteClient

/-- Embedding of `TransactionManager._new_transaction_server`
(manager.py:161-165). -/
def new_transaction_server_method (msg : Msg) : Except PyErr Transaction :=
  if !msg.isrequest then .error .assertionError
  else if msg.type = .request "INVITE" then .ok .inviteServer
  else .ok .nonInviteServer

/-- Embedding of `TransactionManager._new_trasaction_oneshot`
(manager.py:167-169).  NOTE both the method's name — `trasaction`, with the
`n` missing — and its assertion that the message is an ACK are exactly as in
the source. -/
def new_trasaction_oneshot_method (msg : Msg) : Except PyErr Transaction :=
  if msg.type = .request "ACK" then .ok .oneShot
  else .error .assertionError

/-- The `_new_transaction_*`-prefixed factory methods actually defined on
`TransactionManager`, by their Python attribute names.  The one-shot factory
is reachable only under the misspelt name `_new_trasaction_oneshot`
(manager.py:167). -/
def transaction_factory_methods :
    List (String × (Msg → Except PyErr Transaction)) :=
  [("_new_transaction_client", new_transaction_client_method),
   ("_new_transaction_server", new_transaction_server_method),
   ("_new_trasaction_oneshot", new_trasaction_oneshot_method)]

/-- `Transaction.types` (base.py, external): the coordinator asserts
membership before dispatching. -/
def transaction_types : List String := ["client", "server", "oneshot"]

/-- Embedding of `TransactionManager.new_transaction` (manager.py:171-175):
`assert ttype in Transaction.types`, then dispatch through
`getattr(self, '_new_transaction_' + ttype)`; a missing attribute is an
`AttributeError`. -/
def new_transaction (ttype : String) (msg : Msg) : Except PyErr Transaction :=
  if ttype ∉ transaction_types then .error .assertionError
  else
    match dictGet transaction_factory_methods ("_new_transaction_" ++ ttype) with
    | some f => f msg
    | none => .error (.attributeError ("_new_transaction_" ++ ttype))

/-- Embedding of `TransactionManager.lookup_transaction`
(manager.py:124-139): compute the key, look it up in `transactions`, and on
a miss re-raise the `KeyError` with its text enriched by the message's
type. -/
def lookup_transaction (mgr : TransactionManager) (ttype : String)
    (msg : Msg) : Except PyErr Transaction :=
  let tk := transaction_key_for_message ttype msg
  match dictGet mgr.transactions tk with
  | some t => .ok t
  | none =>
    .error (.keyError
      (tk.ttype ++ "/" ++ tk.branch ++ "/" ++ tk.method ++
        "; message type " ++ msg.type.typeStr))

/-- Modelled from the spec:
`TransactionManager.new_transaction_for_request` is called at manager.py:59
and manager.py:91 but is not defined in the given sources.  §4.4: "if `msg`
is a request, always construct a **new client transaction** of the variant
selected by method ... and register it under its key"; so it constructs the
transaction through the factory dispatch and records it in `transactions`
under `transaction_key_for_message(ttype, msg)`. -/
def new_transaction_for_request (mgr : TransactionManager) (ttype : String)
    (msg : Msg) : Except PyErr (TransactionManager × Transaction) :=
  match new_transaction ttype msg with
  | .error e => .error e
  | .ok t =>
    .ok ({ mgr with
            transactions := dictSet mgr.transactions
              (transaction_key_for_message ttype msg) t }, t)

/-- Embedding of `TransactionManager.transaction_for_outbound_message`
(manager.py:56-86): a request gets a new client transaction; a response
looks up a server transaction, and on a `KeyError` a 2xx response whose
CSeq method is INVITE asks the factory for a one-shot transaction (never
added to `transactions`), while any other unmatched response re-raises the
enriched `KeyError`. -/
def transaction_for_outbound_message (mgr : TransactionManager) (msg : Msg) :
    Except PyErr (TransactionManager × Transaction) :=
  if msg.isrequest then new_transaction_for_request mgr "client" msg
  else
    match lookup_transaction mgr "server" msg with
    | .ok t => .ok (mgr, t)
    | .error (.keyError e) =>
      if (match msg.type with
          | .response c => decide (200 ≤ c ∧ c < 300)
          | .request _ => false)
          && (msg.cseqMethod = "INVITE") then
        (new_transaction "oneshot" msg).map (fun t => (mgr, t))
      else .error (.keyError e)
    | .error e => .error e

/-! ## Socket resource manager: the listen-socket cache (`sipparty/transport.py`)

The cache is a nested dict keyed, in fixed order, by socket family, socket
type, name, port (and flowinfo and scopeid for IPv6), with `SocketProxy`
objects at the leaves.  Proxies are embedded as integer identities whose
retain counts live in a side table; the OS-level bind performed by
`create_listen_socket` is abstracted by passing in the bound address the OS
would report.
-/

/-- A transport name: one of the four sentinel special names
(transport.py:95-133) or a concrete host name. -/
inductive TName where
  | nameAll
  | nameLANHostname
  | nameLoopbackAddress
  | sendFromAddressNameAny
  | host (s : String)
deriving DecidableEq, Repr

/-- A key of the socket cache tree, tagged with the field it comes from. -/
inductive TKey where
  | fam (n : Nat)
  | typ (n : Nat)
  | nm (x : TName)
  | prt (n : Nat)
  | flow (x : Option Nat)
  | scope (x : Option Nat)
deriving DecidableEq, Repr

/-- `socket.AF_INET`. -/
def AF_INET : Nat := 2

/-- `socket.AF_INET6`. -/
def AF_INET6 : Nat := 10

/-- `socket.SOCK_STREAM`. -/
def SOCK_STREAM : Nat := 1

/-- `socket.SOCK_DGRAM`. -/
def SOCK_DGRAM : Nat := 2

/-- A value in the nested socket cache: a `SocketProxy` (by identity) or a
further nested dict. -/
inductive CTree where
  | prox (id : Nat)
  | dict (entries : List (TKey × CTree))
deriving Repr

/-- The per-level wildcard finder of a find tuple (transport.py:876-916):
the family and type levels use `lambda _dict, key: (key, {})`; the name
level `find_suitable_name`; the port level `find_suitable_port` closed over
the request's port filter; the flowinfo/scopeid levels
`find_suitable_flowinfo_or_scopeid`; the remote-address levels of a
connected find tuple carry `None`. -/
inductive Finder where
  | autovivify
  | suitableName
  | suitablePort (pfilter : Option (Nat → Bool))
  | suitableFlowOrScope
  | noFinder

/-- Semantics of the finders (transport.py:879-916): each receives the
current level's dict and the requested key, and returns a replacement
(key, value) entry or nothing.  `find_suitable_port` wildcards only a
request for port 0, taking the first entry passing the filter;
`find_suitable_name` wildcards only a SEND-FROM-ANY request, taking the
first entry; `find_suitable_flowinfo_or_scopeid` wildcards only an
unspecified (`None`) value; the family/type lambda fabricates an empty
sub-dict under the requested key. -/
def runFinder : Finder → List (TKey × CTree) → TKey → Option (TKey × CTree)
  | .autovivify, _, k => some (k, .dict [])
  | .suitableName, entries, k =>
    if k = .nm .sendFromAddressNameAny then entries.head? else none
  | .suitablePort pf, entries, k =>
    if k = .prt 0 then
      entries.find? (fun e =>
        match pf, e.1 with
        | none, _ => true
        | some f, .prt p => f p
        | some _, _ => false)
    else none
  | .suitableFlowOrScope, entries, k =>
    match k with
    | .flow none => entries.head?
    | .scope none => entries.head?
    | _ => none
  | .noFinder, _, _ => none

/-- Embedding of `Transport.yield_dict_path` (transport.py:934-952),
including the path collection done by its consumer: walk the nested dict
level by level; take the exact entry when present, otherwise ask the
level's finder and insert whatever entry it fabricates (`next_dict[key] =
obj` — this is where an absent family/type key auto-creates an empty
sub-dict inside the cache); stop at the first level failing both.  The
generator mutates the dict it walks, so the embedding returns the updated
dict alongside the path, and path entries carry the sub-dicts as finally
mutated (the consumers use them by reference).  Descending into a
`SocketProxy` with lookups remaining is the Python `AttributeError` on
`.get`. -/
def yield_dict_path (entries : List (TKey × CTree)) :
    List (TKey × Finder) →
      Except PyErr (List (TKey × CTree) × List (TKey × CTree))
  | [] => .ok ([], entries)
  | (k, f) :: rest =>
    match dictGet entries k with
    | some (.dict sub) =>
      match yield_dict_path sub rest with
      | .error e => .error e
      | .ok (p, sub2) =>
        .ok ((k, .dict sub2) :: p, dictSet entries k (.dict sub2))
    | some (.prox i) =>
      match rest with
      | [] => .ok ([(k, .prox i)], entries)
      | _ :: _ => .error (.attributeError "get")
    | none =>
      match runFinder f entries k with
      | none => .ok ([], entries)
      | some (k2, obj) =>
        match obj with
        | .dict sub =>
          match yield_dict_path sub rest with
          | .error e => .error e
          | .ok (p, sub2) =>
            .ok ((k2, .dict sub2) :: p,
              dictSet (dictSet entries k2 obj) k2 (.dict sub2))
        | .prox i =>
          match rest with
          | [] => .ok ([(k2, .prox i)], dictSet entries k2 obj)
          | _ :: _ => .error (.attributeError "get")

/-- Embedding of `Transport.find_cached_object` (transport.py:758-776):
collect the path yielded by `yield_dict_path`; a full-depth path ends at the
cached object (`path[-1][1]`), a shorter one reports "not found".  The two
`assert` statements are the source's. -/
def find_cached_object (cache : List (TKey × CTree))
    (find_tuple : List (TKey × Finder)) :
    Except PyErr (List (TKey × CTree) × Option CTree × List (TKey × CTree)) :=
  match yield_dict_path cache find_tuple with
  | .error e => .error e
  | .ok (path, cache2) =>
    if path.length = 7 ∧ find_tuple.length = 8 then .error .assertionError
    else if ¬ path.length ≤ find_tuple.length then .error .assertionError
    else if path.length = find_tuple.length then
      match path.getLast? with
      | some last => .ok (path, some last.2, cache2)
      | none => .error .indexError
    else .ok (path, none, cache2)

/-- The `ListenDescription` fields that feed the cache key construction
(transport.py:361-422). -/
structure ListenDescription where
  sock_family : Nat
  sock_type : Nat
  name : TName
  port : Nat
  flowinfo : Option Nat
  scopeid : Option Nat
  port_filter : Option (Nat → Bool)

/-- Embedding of `ListenDescription.deduce_missing_values`
(transport.py:384-393): for an IPv6 description, default `flowinfo` and
`scopeid` to 0.  (The family-from-name deduction needs the IP-address
regexes; the embedding takes the family as given, as the claims' callers
do.) -/
def deduce_missing_values (la : ListenDescription) : ListenDescription :=
  if la.sock_family = AF_INET6 then
    { la with
      flowinfo := some (la.flowinfo.getD 0),
      scopeid := some (la.scopeid.getD 0) }
  else la

/-- Embedding of
`Transport.convert_listen_description_into_find_tuple`
(transport.py:875-919): the fixed-order (key, finder) pairs, with the two
IPv6-only levels dropped for an `AF_INET` description (`rtup[:-2]`). -/
def convert_listen_description_into_find_tuple (la : ListenDescription) :
    List (TKey × Finder) :=
  let rtup : List (TKey × Finder) :=
    [(.fam la.sock_family, .autovivify),
     (.typ la.sock_type, .autovivify),
     (.nm la.name, .suitableName),
     (.prt la.port, .suitablePort la.port_filter),
     (.flow la.flowinfo, .suitableFlowOrScope),
     (.scope la.scopeid, .suitableFlowOrScope)]
  if la.sock_family = AF_INET then rtup.take 4 else rtup

/-- Embedding of `Transport.insert_cached_object` (transport.py:865-873):
graft `obj` at the key path, creating intermediate dicts
(`next_dict.get(key, {})`).  An empty path would be the `path[-1]`
`IndexError`; meeting a proxy mid-path would be the Python `TypeError`
family of failures on indexing it (embedded as an `AttributeError` like the
walk's). -/
def insert_cached_object (root : List (TKey × CTree)) :
    List TKey → CTree → Except PyErr (List (TKey × CTree))
  | [], _ => .error .indexError
  | [k], obj => .ok (dictSet root k obj)
  | k :: k2 :: rest, obj =>
    let sub : Except PyErr (List (TKey × CTree)) :=
      match dictGet root k with
      | some (.dict s) => .ok s
      | some (.prox _) => .error (.attributeError "get")
      | none => .ok []
    match sub with
    | .error e => .error e
    | .ok s =>
      match insert_cached_object s (k2 :: rest) obj with
      | .error e => .error e
      | .ok s2 => .ok (dictSet root k (.dict s2))

/-- The transport-instance state the listen-socket cache operations touch:
`_tp_listen_sockets`, plus a side table of proxy retain counts (the
`Retainable` mixin's counter — modelled from the spec: sipparty/util.py is
not among the given sources; §3 SocketHandle: a retain count incremented by
`retain()`, decremented by `release()`, `is_retained` iff positive) and a
supply of fresh proxy identities. -/
structure TransportCache where
  listen_sockets : List (TKey × CTree)
  proxies : List (Nat × Nat)
  next_id : Nat

/-- Embedding of `Transport.listen_for_me` (transport.py:646-681) from the
point where the description is complete: deduce missing values, build the
find tuple, look in the cache — raising `SocketInUseError` when an object
is found — and otherwise create the listen socket (the OS-reported bound
address is the `bound` parameter), retain it
(`_add_socket_proxy`, transport.py:852-863) and graft it into the cache
under the bound address's find-tuple keys. -/
def listen_for_me (tp : TransportCache) (la : ListenDescription)
    (bound : ListenDescription) :
    TransportCache × Except PyErr ListenDescription :=
  let la2 := deduce_missing_values la
  let tpl := convert_listen_description_into_find_tuple la2
  match find_cached_object tp.listen_sockets tpl with
  | .error e => (tp, .error e)
  | .ok (_, lsck, cache2) =>
    let tp2 := { tp with listen_sockets := cache2 }
    match lsck with
    | some _ => (tp2, .error .socketInUseError)
    | none =>
      let id := tp2.next_id
      let keys := (convert_listen_description_into_find_tuple bound).map (·.1)
      match insert_cached_object tp2.listen_sockets keys (.prox id) with
      | .error e => (tp2, .error e)
      | .ok cache3 =>
        ({ tp2 with
            listen_sockets := cache3,
            proxies := dictSet tp2.proxies id 1,
            next_id := id + 1 }, .ok bound)

/-- `del ldict[key]` through the alias `path[-2][1]`
(transport.py:795-797): functionally, delete `k` from the dict reached by
the parent keys of the path. -/
def delete_at (root : List (TKey × CTree)) :
    List TKey → TKey → List (TKey × CTree)
  | [], k => dictDel root k
  | pk :: rest, k =>
    match dictGet root pk with
    | some (.dict sub) => dictSet root pk (.dict (delete_at sub rest k))
    | _ => root

/-- Embedding of `Transport.release_listen_address` (transport.py:778-797):
find the cached proxy for the description (raising `KeyError` when absent),
release one retain, and when no retain remains delete the leaf cache entry
(`del ldict[key]` with `ldict = path[-2][1]`, `key = path[-1][0]`). -/
def release_listen_address (tp : TransportCache) (la : ListenDescription) :
    TransportCache × Except PyErr Unit :=
  let tpl := convert_listen_description_into_find_tuple la
  match find_cached_object tp.listen_sockets tpl with
  | .error e => (tp, .error e)
  | .ok (path, lsck, cache2) =>
    let tp2 := { tp with listen_sockets := cache2 }
    match lsck with
    | none => (tp2, .error (.keyError "was not a known ListenDescription"))
    | some (.dict _) => (tp2, .error (.attributeError "release"))
    | some (.prox id) =>
      let cnt := (dictGet tp2.proxies id).getD 0
      let cnt2 := cnt - 1
      let tp3 := { tp2 with proxies := dictSet tp2.proxies id cnt2 }
      if cnt2 = 0 then
        match path.getLast? with
        | none => (tp3, .ok ())
        | some last =>
          ({ tp3 with
              listen_sockets :=
                delete_at tp3.listen_sockets (path.dropLast.map (·.1))
                  last.1 }, .ok ())
      else (tp3, .ok ())

/-! ## Theorems -/

theorem mem_addRetryTime {x c : Int} : ∀ {l : List Int},
    x ∈ addRetryTime l c → x = c ∨ x ∈ l := by
  intro l
  induction l with
  | nil => simp [addRetryTime]
  | cons t rest ih =>
    simp only [addRetryTime]
    split
    · simp only [List.mem_cons]
      tauto
    · split
      · intro h; exact Or.inr h
      · simp only [List.mem_cons]
        intro h
        rcases h with h | h
        · tauto
        · rcases ih h with h' | h' <;> tauto

theorem addRetryTime_sorted {l : List Int} (c : Int)
    (hs : List.Sorted (· < ·) l) :
    List.Sorted (· < ·) (addRetryTime l c) := by
  induction l with
  | nil => simp [addRetryTime]
  | cons t rest ih =>
    rw [List.sorted_cons] at hs
    obtain ⟨ht, hrest⟩ := hs
    simp only [addRetryTime]
    split
    · rename_i hlt
      rw [List.sorted_cons, List.sorted_cons]
      refine ⟨?_, ht, hrest⟩
      intro b hb
      rcases List.mem_cons.mp hb with h | h
      · exact h ▸ hlt
      · exact lt_trans hlt (ht b h)
    · split
      · exact List.sorted_cons.mpr ⟨ht, hrest⟩
      · rename_i hnlt hne
        rw [List.sorted_cons]
        refine ⟨?_, ih hrest⟩
        intro b hb
        rcases mem_addRetryTime hb with h | h
        · exact h ▸ lt_of_le_of_ne (not_lt.mp hnlt) (Ne.symm hne)
        · exact ht b h

theorem addRetryTime_mem_noop {l : List Int} {c : Int}
    (hs : List.Sorted (· < ·) l) (hmem : c ∈ l) :
    addRetryTime l c = l := by
  induction l with
  | nil => cases hmem
  | cons t rest ih =>
    rw [List.sorted_cons] at hs
    obtain ⟨ht, hrest⟩ := hs
    simp only [addRetryTime]
    split
    · rename_i hlt
      exfalso
      rcases List.mem_cons.mp hmem with h | h
      · exact absurd (h ▸ hlt) (lt_irrefl t)
      · exact absurd (lt_trans hlt (ht c h)) (lt_irrefl c)
    · split
      · rfl
      · rename_i hnlt hne
        have : c ∈ rest := by
          rcases List.mem_cons.mp hmem with h | h
          · exact absurd h hne
          · exact h
        rw [ih hrest this]

theorem retryTimesAfter_sorted (calls : List Int) :
    List.Sorted (· < ·) (retryTimesAfter calls) := by
  suffices h : ∀ (cs : List Int) (l : List Int), List.Sorted (· < ·) l →
      List.Sorted (· < ·) (cs.foldl addRetryTime l) by
    exact h calls [] (by simp)
  intro cs
  induction cs with
  | nil => intro l hl; exact hl
  | cons c cs ih =>
    intro l hl
    exact ih _ (addRetryTime_sorted c hl)

/-- **C1.** Every sequence of `addRetryTime` calls, starting from the empty
retry-time list, leaves the internal list sorted in (strictly) ascending
order; and a further call with a time already present in the list leaves the
list unchanged, so that deadline is pending only once and fires only once. -/
theorem addRetryTime_keeps_sorted_and_dedups (calls : List Int) (c : Int) :
    List.Sorted (· < ·) (retryTimesAfter calls) ∧
    (c ∈ retryTimesAfter calls →
      addRetryTime (retryTimesAfter calls) c = retryTimesAfter calls) := by
  refine ⟨retryTimesAfter_sorted calls, fun hmem => ?_⟩
  exact addRetryTime_mem_noop (retryTimesAfter_sorted calls) hmem

/-- Witness for C1 at the concrete call sequence `[3, 1, 2]` and re-added
time `2`. -/
theorem addRetryTime_keeps_sorted_and_dedups_witness :
    List.Sorted (· < ·) (retryTimesAfter [3, 1, 2]) ∧
    addRetryTime (retryTimesAfter [3, 1, 2]) 2 = retryTimesAfter [3, 1, 2] :=
  ⟨(addRetryTime_keeps_sorted_and_dedups [3, 1, 2] 2).1,
   (addRetryTime_keeps_sorted_and_dedups [3, 1, 2] 2).2 (by decide)⟩


/-! ### Framing lemmas: first occurrence of the blank line -/

theorem eoleolIndex_eq_none {l : List Nat} (h : eoleolIndex l = none) :
    ∀ j, ¬ eoleolAt l j := by
  induction l with
  | nil => intro j; simp [eoleolAt, eoleol]
  | cons a rest ih =>
    intro j
    simp only [eoleolIndex] at h
    split at h
    · exact absurd h (by simp)
    · rename_i h4
      rw [Option.map_eq_none'] at h
      cases j with
      | zero =>
        intro hj
        exact h4 (by simpa [eoleolAt] using hj)
      | succ j2 =>
        intro hj
        exact ih h j2 (by simpa [eoleolAt] using hj)

theorem eoleolIndex_eq_some {l : List Nat} {i : Nat}
    (h : eoleolIndex l = some i) :
    eoleolAt l i ∧ ∀ k, k < i → ¬ eoleolAt l k := by
  induction l generalizing i with
  | nil => simp [eoleolIndex] at h
  | cons a rest ih =>
    simp only [eoleolIndex] at h
    split at h
    · rename_i h4
      obtain rfl : i = 0 := by simpa using h.symm
      exact ⟨by simpa [eoleolAt] using h4, by omega⟩
    · rename_i h4
      rw [Option.map_eq_some'] at h
      obtain ⟨i2, hi2, rfl⟩ := h
      obtain ⟨hat, hmin⟩ := ih hi2
      refine ⟨by simpa [eoleolAt] using hat, ?_⟩
      intro k hk
      cases k with
      | zero => intro hj; exact h4 (by simpa [eoleolAt] using hj)
      | succ k2 =>
        intro hj
        exact hmin k2 (by omega) (by simpa [eoleolAt] using hj)

theorem eoleolAt_of_take {l : List Nat} {i j : Nat}
    (h : eoleolAt (l.take i) j) : eoleolAt l j ∧ j + 4 ≤ i := by
  unfold eoleolAt at h
  have hlen := congrArg List.length h
  simp [eoleol] at hlen
  have hfit : j + 4 ≤ min i l.length := by omega
  have hij : j + 4 ≤ i := le_trans hfit (by omega)
  refine ⟨?_, hij⟩
  unfold eoleolAt
  rw [List.drop_take] at h
  rw [List.take_take] at h
  rwa [show min 4 (i - j) = 4 by omega] at h

theorem eoleolIndex_take_eq_none {m : List Nat} {e : Nat}
    (hm : eoleolIndex m = some e) {i : Nat} (hi : i < e + 4) :
    eoleolIndex (m.take i) = none := by
  cases h2 : eoleolIndex (m.take i) with
  | none => rfl
  | some j =>
    exfalso
    obtain ⟨hat, _⟩ := eoleolIndex_eq_some h2
    obtain ⟨hatm, hji⟩ := eoleolAt_of_take hat
    obtain ⟨_, hmin⟩ := eoleolIndex_eq_some hm
    exact hmin j (by omega) hatm

/-! ### One step of the byte consumer -/

theorem sipByteConsumer_no_eoleol {decode : List Nat → Option Msg}
    {st : SIPTransport} {d : List Nat} (h : eoleolIndex d = none) :
    sipByteConsumer decode st d = .ok ⟨st, [], [], 0⟩ := by
  simp [sipByteConsumer, h]

theorem sipByteConsumer_parse_fail {decode : List Nat → Option Msg}
    {st : SIPTransport} {d : List Nat} {i : Nat}
    (h : eoleolIndex d = some i) (hfail : decode (d.take i) = none) :
    sipByteConsumer decode st d = .ok ⟨st, [], [d], 0⟩ := by
  simp [sipByteConsumer, MessageParse, h, hfail]

theorem sipByteConsumer_parse_ok {decode : List Nat → Option Msg}
    {st : SIPTransport} {d : List Nat} {i : Nat} {m0 : Msg}
    (h : eoleolIndex d = some i) (hok : decode (d.take i) = some m0) :
    sipByteConsumer decode st d =
      .ok ⟨(consumeMessage st { m0 with parsedBytes := i + 4 }).1,
        (consumeMessage st { m0 with parsedBytes := i + 4 }).2.1, [d],
        i + 4⟩ := by
  simp [sipByteConsumer, MessageParse, h, hok]

/-! ### The demultiplexer claims -/

/-- **C2 (amended).** The byte consumer itself is split-insensitive: a call
whose data contains no `CRLF CRLF` consumes zero bytes and leaves the
transport state unchanged, so a caller that retained the unconsumed prefix
and re-presented it with the next arrival would hand the consumer exactly
the complete message, whose single-shot consumption parses it and reports
all its bytes consumed.  But the program contains no such caller: the
buffering protocol `Transport.receivedData` raises `AssertionError` on
every call (its body is deprecated behind `assert 0`), and the live
delivery path hands each datagram to the consumer alone and discards the
consumed-byte count, so the partial first chunk is simply dropped and a
complete message split across two datagrams is not reassembled. -/
theorem byte_consumer_split_insensitive_without_retention
    (decode : List Nat → Option Msg) (st : SIPTransport) (m : List Nat)
    (m0 : Msg) (hm : eoleolIndex m = some (m.length - 4))
    (hlen : 4 ≤ m.length) (hd : decode (m.take (m.length - 4)) = some m0)
    (i : Nat) (hi : i < m.length) :
    sipByteConsumer decode st (m.take i) = .ok ⟨st, [], [], 0⟩ ∧
    m.take i ++ m.drop i = m ∧
    sipByteConsumer decode st m =
      .ok ⟨(consumeMessage st { m0 with parsedBytes := m.length }).1,
        (consumeMessage st { m0 with parsedBytes := m.length }).2.1, [m],
        m.length⟩ ∧
    (∀ (st2 : SIPTransport) (buf data : List Nat),
      receivedData decode st2 buf data = .error .assertionError) ∧
    readable_socket_delivery decode st (m.take i) = .ok st ∧
    (∀ (st2 : SIPTransport) (d2 : List Nat), eoleolIndex d2 = none →
      sipByteConsumer decode st2 d2 = .ok ⟨st2, [], [], 0⟩) := by
  have hnone : eoleolIndex (m.take i) = none := by
    apply eoleolIndex_take_eq_none hm
    omega
  have hfirst := @sipByteConsumer_no_eoleol decode st _ hnone
  have hlen4 : m.length - 4 + 4 = m.length := Nat.sub_add_cancel hlen
  have hsingle := @sipByteConsumer_parse_ok decode st _ _ _ hm hd
  rw [hlen4] at hsingle
  refine ⟨hfirst, List.take_append_drop i m, hsingle, fun _ _ _ => rfl,
    ?_, ?_⟩
  · rw [readable_socket_delivery, hfirst]
    rfl
  · intro st2 d2 hnone2
    exact sipByteConsumer_no_eoleol hnone2

/-- Witness for C2's amended theorem at the concrete complete message
`b'A\r\n\r\n'` split after two bytes. -/
theorem byte_consumer_split_insensitive_without_retention_witness :
    sipByteConsumer
        (fun _ => some ⟨.request "ACK", none, none, "", "", "", "", 0⟩)
        ⟨[], [], [], []⟩ [65, 13] = .ok ⟨⟨[], [], [], []⟩, [], [], 0⟩ ∧
    [65, 13] ++ [10, 13, 10] = [65, 13, 10, 13, 10] ∧
    sipByteConsumer
        (fun _ => some ⟨.request "ACK", none, none, "", "", "", "", 0⟩)
        ⟨[], [], [], []⟩ [65, 13, 10, 13, 10] =
      .ok ⟨⟨[⟨.request "ACK", none, none, "", "", "", "", 5⟩], [], [], []⟩,
        [], [[65, 13, 10, 13, 10]], 5⟩ ∧
    receivedData
        (fun _ => some ⟨.request "ACK", none, none, "", "", "", "", 0⟩)
        ⟨[], [], [], []⟩ [] [65, 13, 10, 13, 10] =
      .error .assertionError ∧
    readable_socket_delivery
        (fun _ => some ⟨.request "ACK", none, none, "", "", "", "", 0⟩)
        ⟨[], [], [], []⟩ [65, 13] = .ok ⟨[], [], [], []⟩ ∧
    sipByteConsumer
        (fun _ => some ⟨.request "ACK", none, none, "", "", "", "", 0⟩)
        ⟨[], [], [], []⟩ [66] = .ok ⟨⟨[], [], [], []⟩, [], [], 0⟩ := by
  have H := byte_consumer_split_insensitive_without_retention
    (fun _ => some ⟨.request "ACK", none, none, "", "", "", "", 0⟩)
    ⟨[], [], [], []⟩ [65, 13, 10, 13, 10]
    ⟨.request "ACK", none, none, "", "", "", "", 0⟩
    (by decide) (by decide) rfl 2 (by decide)
  exact ⟨H.1, H.2.1, H.2.2.1, H.2.2.2.1 ⟨[], [], [], []⟩ []
    [65, 13, 10, 13, 10], H.2.2.2.2.1,
    H.2.2.2.2.2 ⟨[], [], [], []⟩ [66] (by decide)⟩

/-- Counterexample to **C2** as stated: at the concrete complete message
`b'A\r\n\r\n'` split after two bytes, the single-shot delivery parses the
message, but the program cannot feed it "in two partial chunks with the
unconsumed prefix retained and re-presented": the retention protocol
`Transport.receivedData` raises `AssertionError` at its first statement
instead of retaining anything, and on the live delivery path each fragment
is handed to the consumer alone and then discarded, so neither fragment
yields any parsed message — the two-chunk feed does not produce the same
parsed message as the single call. -/
theorem split_message_not_reassembled_counterexample :
    readable_socket_delivery
        (fun l => if l = [65] then
          some ⟨.request "ACK", none, none, "", "", "", "", 0⟩ else none)
        ⟨[], [], [], []⟩ [65, 13, 10, 13, 10] =
      .ok ⟨[⟨.request "ACK", none, none, "", "", "", "", 5⟩], [], [], []⟩ ∧
    readable_socket_delivery
        (fun l => if l = [65] then
          some ⟨.request "ACK", none, none, "", "", "", "", 0⟩ else none)
        ⟨[], [], [], []⟩ [65, 13] = .ok ⟨[], [], [], []⟩ ∧
    readable_socket_delivery
        (fun l => if l = [65] then
          some ⟨.request "ACK", none, none, "", "", "", "", 0⟩ else none)
        ⟨[], [], [], []⟩ [10, 13, 10] = .ok ⟨[], [], [], []⟩ ∧
    ([⟨.request "ACK", none, none, "", "", "", "", 5⟩] : List Msg) ≠ [] ∧
    receivedData
        (fun l => if l = [65] then
          some ⟨.request "ACK", none, none, "", "", "", "", 0⟩ else none)
        ⟨[], [], [], []⟩ [] [65, 13, 10, 13, 10] =
      .error .assertionError :=
  ⟨rfl, rfl, rfl, by simp, rfl⟩

/-- **C3.** When the byte consumer finds the `CRLF CRLF` boundary but
parsing fails, the malformed datagram is dropped after logging: the consumer
reports 0 bytes consumed and leaves the transport state unchanged, the live
delivery path discards the datagram (nothing is retained anywhere — the
transport state holds no byte buffer), and every consumer call hands the
parser only its own newly arrived datagram, so the demultiplexer never
re-attempts parsing on the dropped malformed bytes. -/
theorem malformed_chunk_dropped_never_reattempted
    (decode : List Nat → Option Msg) (st : SIPTransport) (d : List Nat)
    (i : Nat) (hfound : eoleolIndex d = some i)
    (hfail : decode (d.take i) = none) :
    sipByteConsumer decode st d = .ok ⟨st, [], [d], 0⟩ ∧
    readable_socket_delivery decode st d = .ok st ∧
    (∀ (st2 : SIPTransport) (d2 : List Nat) (r : ConsumeResult),
      sipByteConsumer decode st2 d2 = .ok r →
      r.parseAttempts = [] ∨ r.parseAttempts = [d2]) := by
  have h1 := @sipByteConsumer_parse_fail decode st _ _ hfound hfail
  refine ⟨h1, ?_, ?_⟩
  · rw [readable_socket_delivery, h1]
    rfl
  · intro st2 d2 r hr
    cases heol : eoleolIndex d2 with
    | none =>
      rw [sipByteConsumer_no_eoleol heol] at hr
      cases hr
      exact Or.inl rfl
    | some j =>
      cases hd2 : decode (d2.take j) with
      | none =>
        rw [@sipByteConsumer_parse_fail decode st2 _ _ heol hd2] at hr
        cases hr
        exact Or.inr rfl
      | some m2 =>
        rw [sipByteConsumer_parse_ok heol hd2] at hr
        cases hr
        exact Or.inr rfl

/-- Witness for C3 at the concrete malformed datagram `b'Y\r\n\r\n'` with
a decoder that rejects every header block. -/
theorem malformed_chunk_dropped_never_reattempted_witness :
    sipByteConsumer (fun _ => none) ⟨[], [], [], []⟩ [89, 13, 10, 13, 10] =
      .ok ⟨⟨[], [], [], []⟩, [], [[89, 13, 10, 13, 10]], 0⟩ ∧
    readable_socket_delivery (fun _ => none) ⟨[], [], [], []⟩
        [89, 13, 10, 13, 10] = .ok ⟨[], [], [], []⟩ ∧
    ((⟨⟨[], [], [], []⟩, [], [], 0⟩ : ConsumeResult).parseAttempts = [] ∨
      (⟨⟨[], [], [], []⟩, [], [], 0⟩ : ConsumeResult).parseAttempts =
        [[70]]) := by
  have H := malformed_chunk_dropped_never_reattempted
    (fun _ => none) ⟨[], [], [], []⟩ [89, 13, 10, 13, 10] 1 (by decide) rfl
  exact ⟨H.1, H.2.1, H.2.2 ⟨[], [], [], []⟩ [70] ⟨⟨[], [], [], []⟩, [], [], 0⟩
    rfl⟩

/-- **C5.** No input to the byte consumer — malformed data, messages with
missing dialog-identifying headers, messages matching no dialog — makes it
propagate an error: `sipByteConsumer` always returns normally (the
`ParseError` handler and the catch-all around `consumeMessage` absorb every
protocol-level failure, including the unroutable-message assertion). -/
theorem byte_consumer_never_raises (decode : List Nat → Option Msg)
    (st : SIPTransport) (data : List Nat) :
    ∃ r, sipByteConsumer decode st data = .ok r := by
  cases heol : eoleolIndex data with
  | none => exact ⟨_, sipByteConsumer_no_eoleol heol⟩
  | some i =>
    cases hd : decode (data.take i) with
    | none => exact ⟨_, sipByteConsumer_parse_fail heol hd⟩
    | some m0 => exact ⟨_, sipByteConsumer_parse_ok heol hd⟩

/-- **C4.** For every parsed non-ACK message with a From tag, a non-empty
Call-ID and a To tag, the demultiplexer computes the established dialog ID
with direction-dependent tag assignment (request: local = To tag, remote =
From tag; response: local = From tag, remote = To tag), forwards the message
to the established dialog under that ID when one exists, otherwise to the
provisional dialog under the corresponding provisional ID when one exists,
and otherwise drops it without creating any dialog (the maps are unchanged;
internally this is the line-320 assertion, which the byte consumer
catches). -/
theorem in_dialog_routing (st : SIPTransport) (msg : Msg) (ft tt : String)
    (hack : msg.type ≠ MsgType.request "ACK")
    (hft : msg.fromTag = some ft)
    (hcid : msg.callId ≠ "")
    (htt : msg.toTag = some tt) :
    let did : EstablishedDialogID :=
      if msg.isresponse then ⟨msg.callId, ft, tt⟩ else ⟨msg.callId, tt, ft⟩
    let pdid := ProvisionalDialogIDFromEstablishedID did
    let stM : SIPTransport := { st with messages := st.messages ++ [msg] }
    (∀ dlg, dictGet st.establishedDialogs did = some dlg →
      consumeMessage st msg = (stM, [(dlg.id, msg)], Except.ok ())) ∧
    (dictGet st.establishedDialogs did = none →
      (∀ dlg, dictGet st.provisionalDialogs pdid = some dlg →
        consumeMessage st msg = (stM, [(dlg.id, msg)], Except.ok ())) ∧
      (dictGet st.provisionalDialogs pdid = none →
        consumeMessage st msg =
          (stM, [], Except.error PyErr.assertionError))) := by
  intro did pdid stM
  have hbody : consumeMessage st msg = consumeInDialogMessage stM msg := by
    rw [consumeMessage]
    rw [if_neg hack, if_neg (by simp [hft]), if_neg hcid,
      if_neg (by simp [htt])]
  have hdid : (if msg.isresponse then
      (⟨msg.callId, msg.fromTag.getD "", msg.toTag.getD ""⟩ :
        EstablishedDialogID)
      else ⟨msg.callId, msg.toTag.getD "", msg.fromTag.getD ""⟩) = did := by
    simp only [hft, htt, Option.getD_some]
  have hmaps : stM.establishedDialogs = st.establishedDialogs ∧
      stM.provisionalDialogs = st.provisionalDialogs := ⟨rfl, rfl⟩
  refine ⟨?_, ?_⟩
  · intro dlg hest
    rw [hbody, consumeInDialogMessage]
    simp only [hdid, hmaps.1, hmaps.2, hest]
  · intro hest
    refine ⟨?_, ?_⟩
    · intro dlg hprov
      rw [hbody, consumeInDialogMessage]
      simp only [hdid, hmaps.1, hmaps.2, hest, hprov]
    · intro hprov
      rw [hbody, consumeInDialogMessage]
      simp only [hdid, hmaps.1, hmaps.2, hest, hprov]

/-- Witness for C4: an in-dialog INVITE routed to the established dialog
with identity 7. -/
theorem in_dialog_routing_witness :
    consumeMessage
      ⟨[], [], [(⟨"c", "lt", "rt"⟩, ⟨7, ⟨"c", "lt"⟩, some ⟨"c", "lt", "rt"⟩⟩)],
        []⟩
      ⟨.request "INVITE", some "rt", some "lt", "c", "a", "b", "INVITE", 0⟩ =
      (⟨[⟨.request "INVITE", some "rt", some "lt", "c", "a", "b", "INVITE",
          0⟩], [],
        [(⟨"c", "lt", "rt"⟩, ⟨7, ⟨"c", "lt"⟩, some ⟨"c", "lt", "rt"⟩⟩)], []⟩,
       [(7, ⟨.request "INVITE", some "rt", some "lt", "c", "a", "b",
          "INVITE", 0⟩)],
       Except.ok ()) :=
  (in_dialog_routing
    ⟨[], [], [(⟨"c", "lt", "rt"⟩, ⟨7, ⟨"c", "lt"⟩, some ⟨"c", "lt", "rt"⟩⟩)],
      []⟩
    ⟨.request "INVITE", some "rt", some "lt", "c", "a", "b", "INVITE", 0⟩
    "rt" "lt" (by decide) rfl (by decide) rfl).1
    ⟨7, ⟨"c", "lt"⟩, some ⟨"c", "lt", "rt"⟩⟩ rfl

/-- **C6.** Registering a dialog handler for an address-of-record that
already has one raises the duplicate-registration `KeyError` and leaves the
handler map (indeed the whole state) unchanged; removing the handler of an
address-of-record that has none raises the not-registered `KeyError` and
likewise changes nothing. -/
theorem aor_handler_registration_errors (st : SIPTransport) (aor : String)
    (handler : AORHandler) :
    ((dictGet st.dialogHandlers aor).isSome = true →
      addDialogHandlerForAOR st aor handler =
        (st, .error (.keyError "Handler already registered for AOR"))) ∧
    ((dictGet st.dialogHandlers aor).isSome = false →
      removeDialogHandlerForAOR st aor =
        (st, .error (.keyError "AOR handler not registered for AOR"))) := by
  constructor
  · intro h
    simp [addDialogHandlerForAOR, h]
  · intro h
    have h2 : dictGet st.dialogHandlers aor = none := by
      cases hg : dictGet st.dialogHandlers aor with
      | none => rfl
      | some v => rw [hg] at h; simp at h
    simp [removeDialogHandlerForAOR, h2]

/-- Witness for C6: a duplicate registration for `"x"` and a removal for the
unregistered `"x"`. -/
theorem aor_handler_registration_errors_witness :
    addDialogHandlerForAOR ⟨[], [], [], [("x", fun _ => none)]⟩ "x"
        (fun _ => none) =
      (⟨[], [], [], [("x", fun _ => none)]⟩,
        .error (.keyError "Handler already registered for AOR")) ∧
    removeDialogHandlerForAOR ⟨[], [], [], []⟩ "x" =
      (⟨[], [], [], []⟩,
        .error (.keyError "AOR handler not registered for AOR")) :=
  ⟨(aor_handler_registration_errors ⟨[], [], [], [("x", fun _ => none)]⟩ "x"
      (fun _ => none)).1 rfl,
   (aor_handler_registration_errors ⟨[], [], [], []⟩ "x"
      (fun _ => none)).2 rfl⟩

/-- **C7.** For every outbound request, the transaction coordinator
constructs a new client transaction — the Invite-Client variant when the
method is INVITE, the NonInvite-Client variant otherwise — and registers it
in the active transaction table under its key
(type `"client"`, Via branch parameter, CSeq method). -/
theorem outbound_request_creates_client_transaction
    (mgr : TransactionManager) (msg : Msg) (hreq : msg.isrequest = true) :
    transaction_for_outbound_message mgr msg =
      .ok ({ mgr with
              transactions := dictSet mgr.transactions
                ⟨"client", msg.branch, msg.cseqMethod⟩
                (if msg.type = .request "INVITE" then .inviteClient
                 else .nonInviteClient) },
        (if msg.type = .request "INVITE" then .inviteClient
         else .nonInviteClient)) := by
  have hnt : new_transaction "client" msg =
      .ok (if msg.type = .request "INVITE" then .inviteClient
        else .nonInviteClient) := by
    rw [new_transaction]
    rw [if_neg (by decide)]
    rw [show ("_new_transaction_" ++ "client" : String) =
      "_new_transaction_client" from rfl]
    rw [show dictGet transaction_factory_methods "_new_transaction_client" =
      some new_transaction_client_method from rfl]
    simp only [new_transaction_client_method]
    rw [hreq]
    simp only [Bool.not_true, Bool.false_eq_true, if_false]
    split <;> rfl
  rw [transaction_for_outbound_message]
  rw [if_pos hreq]
  rw [new_transaction_for_request, hnt]
  rfl

/-- Witness for C7: an outbound INVITE request against an empty transaction
table. -/
theorem outbound_request_creates_client_transaction_witness :
    transaction_for_outbound_message ⟨[], []⟩
        ⟨.request "INVITE", some "f", some "t", "c", "a", "br1", "INVITE",
          0⟩ =
      .ok (⟨[(⟨"client", "br1", "INVITE"⟩, .inviteClient)], []⟩,
        .inviteClient) :=
  outbound_request_creates_client_transaction ⟨[], []⟩
    ⟨.request "INVITE", some "f", some "t", "c", "a", "br1", "INVITE", 0⟩
    rfl

/-- **C8 (code bug).** The failing input: an outbound 200 response whose
CSeq method is INVITE and for which no server transaction is in the table.
The source's comment (manager.py:78-79) and the spec both call for a
one-shot transaction to be constructed and returned, but the factory
dispatch `getattr(self, '_new_transaction_oneshot')` fails with
`AttributeError` because the factory method is defined under the misspelt
name `_new_trasaction_oneshot` (manager.py:167) — and that method would in
any case assert the message is an ACK, which a 200 response is not. -/
theorem unmatched_invite_2xx_hits_attribute_error :
    transaction_for_outbound_message ⟨[], []⟩
        ⟨.response 200, some "f", some "t", "c", "a", "br1", "INVITE", 0⟩ =
      .error (.attributeError "_new_transaction_oneshot") := by
  rfl

/-! ### Socket-cache lemmas -/

theorem dictGet_cons_self {κ α : Type} [DecidableEq κ] (k : κ) (v : α)
    (rest : List (κ × α)) : dictGet ((k, v) :: rest) k = some v := by
  simp [dictGet]

theorem dictSet_cons_self {κ α : Type} [DecidableEq κ] (k : κ) (v w : α)
    (rest : List (κ × α)) : dictSet ((k, v) :: rest) k w = (k, w) :: rest := by
  simp [dictSet]

theorem dictDel_cons_self {κ α : Type} [DecidableEq κ] (k : κ) (v : α)
    (rest : List (κ × α)) : dictDel ((k, v) :: rest) k = rest := by
  simp [dictDel]

theorem yield_dict_path_cons_dict {entries sub : List (TKey × CTree)}
    {k : TKey} (f : Finder) (rest : List (TKey × Finder))
    (h : dictGet entries k = some (.dict sub)) :
    yield_dict_path entries ((k, f) :: rest) =
      match yield_dict_path sub rest with
      | .error e => .error e
      | .ok (p, sub2) =>
        .ok ((k, .dict sub2) :: p, dictSet entries k (.dict sub2)) := by
  simp [yield_dict_path, h]

theorem yield_dict_path_last_prox {entries : List (TKey × CTree)} {k : TKey}
    {i : Nat} (f : Finder) (h : dictGet entries k = some (.prox i)) :
    yield_dict_path entries [(k, f)] = .ok ([(k, .prox i)], entries) := by
  simp [yield_dict_path, h]

theorem yield_dict_path_last_dict {entries sub : List (TKey × CTree)}
    {k : TKey} (f : Finder) (h : dictGet entries k = some (.dict sub)) :
    yield_dict_path entries [(k, f)] =
      .ok ([(k, .dict sub)], dictSet entries k (.dict sub)) := by
  simp [yield_dict_path, h]

theorem yield_dict_path_last_finder_prox {entries : List (TKey × CTree)}
    {k k2 : TKey} {i : Nat} (f : Finder) (hget : dictGet entries k = none)
    (hf : runFinder f entries k = some (k2, .prox i)) :
    yield_dict_path entries [(k, f)] =
      .ok ([(k2, .prox i)], dictSet entries k2 (.prox i)) := by
  simp [yield_dict_path, hget, hf]

theorem yield_dict_path_last_finder_dict {entries sub : List (TKey × CTree)}
    {k k2 : TKey} (f : Finder) (hget : dictGet entries k = none)
    (hf : runFinder f entries k = some (k2, .dict sub)) :
    yield_dict_path entries [(k, f)] =
      .ok ([(k2, .dict sub)],
        dictSet (dictSet entries k2 (.dict sub)) k2 (.dict sub)) := by
  simp [yield_dict_path, hget, hf]

/-- A four-level walk (the AF_INET listen find tuple) whose first three
levels hit exact dict entries. -/
theorem yield_dict_path_four {root a b c : List (TKey × CTree)}
    {k1 k2 k3 : TKey} {t4 : TKey × Finder} {pe : TKey × CTree}
    {c2 : List (TKey × CTree)} (f1 f2 f3 : Finder)
    (h1 : dictGet root k1 = some (.dict a))
    (h2 : dictGet a k2 = some (.dict b))
    (h3 : dictGet b k3 = some (.dict c))
    (h4 : yield_dict_path c [t4] = .ok ([pe], c2)) :
    yield_dict_path root [(k1, f1), (k2, f2), (k3, f3), t4] =
      .ok ([(k1, .dict (dictSet a k2 (.dict (dictSet b k3 (.dict c2))))),
            (k2, .dict (dictSet b k3 (.dict c2))), (k3, .dict c2), pe],
        dictSet root k1
          (.dict (dictSet a k2 (.dict (dictSet b k3 (.dict c2)))))) := by
  rw [yield_dict_path_cons_dict _ _ h1, yield_dict_path_cons_dict _ _ h2,
    yield_dict_path_cons_dict _ _ h3, h4]

/-- A full-depth four-level path makes `find_cached_object` report the
object at its end. -/
theorem find_cached_object_four {root : List (TKey × CTree)}
    {t1 t2 t3 t4 : TKey × Finder} {e1 e2 e3 e4 : TKey × CTree}
    {c2 : List (TKey × CTree)}
    (hw : yield_dict_path root [t1, t2, t3, t4] = .ok ([e1, e2, e3, e4], c2)) :
    find_cached_object root [t1, t2, t3, t4] =
      .ok ([e1, e2, e3, e4], some e4.2, c2) := by
  rw [find_cached_object, hw]
  rfl

/-- Whenever the cache lookup reports an object — found by exact keys or by
wildcard finders — `listen_for_me` raises `SocketInUseError`. -/
theorem listen_for_me_raises_of_found (tp : TransportCache)
    (la bound : ListenDescription) (path : List (TKey × CTree)) (v : CTree)
    (cache2 : List (TKey × CTree))
    (h : find_cached_object tp.listen_sockets
      (convert_listen_description_into_find_tuple
        (deduce_missing_values la)) = .ok (path, some v, cache2)) :
    (listen_for_me tp la bound).2 = .error .socketInUseError := by
  simp only [listen_for_me]
  rw [h]

/-- **C9 (amended).** `listen_for_me` raises `SocketInUseError` whenever the
cache walk reaches a full-depth match for the request, whether by exact keys
or through a wildcard finder: a second non-wildcard request for an exactly
cached (family, type, name, port) fails rather than silently sharing, but a
wildcard request for port 0 that could have reused the cached socket *also*
fails whenever any entry at all sits under the name (the first entry passing
the port filter is matched and then treated as "in use"). -/
theorem listen_for_me_in_use_on_any_match (tp : TransportCache)
    (tname : TName) (stype p : Nat) (a b c : List (TKey × CTree)) (v : CTree)
    (hd : TKey × CTree) (bound : ListenDescription)
    (hfam : dictGet tp.listen_sockets (.fam AF_INET) = some (.dict a))
    (htyp : dictGet a (.typ stype) = some (.dict b))
    (hnm : dictGet b (.nm tname) = some (.dict c)) :
    (dictGet c (.prt p) = some v →
      (listen_for_me tp ⟨AF_INET, stype, tname, p, none, none, none⟩
        bound).2 = .error .socketInUseError) ∧
    (dictGet c (.prt 0) = none → c.head? = some hd →
      (listen_for_me tp ⟨AF_INET, stype, tname, 0, none, none, none⟩
        bound).2 = .error .socketInUseError) := by
  constructor
  · intro hprt
    have hded : deduce_missing_values
        ⟨AF_INET, stype, tname, p, none, none, none⟩ =
        ⟨AF_INET, stype, tname, p, none, none, none⟩ := rfl
    have htpl : convert_listen_description_into_find_tuple
        ⟨AF_INET, stype, tname, p, none, none, none⟩ =
        [(.fam AF_INET, .autovivify), (.typ stype, .autovivify),
         (.nm tname, .suitableName), (.prt p, .suitablePort none)] := rfl
    rcases v with i | sub
    · have h4 := yield_dict_path_last_prox (.suitablePort none) hprt
      have hw := yield_dict_path_four .autovivify .autovivify .suitableName
        hfam htyp hnm h4
      have hf := find_cached_object_four hw
      apply listen_for_me_raises_of_found tp _ bound _ _ _
      rw [hded, htpl]
      exact hf
    · have h4 := yield_dict_path_last_dict (.suitablePort none) hprt
      have hw := yield_dict_path_four .autovivify .autovivify .suitableName
        hfam htyp hnm h4
      have hf := find_cached_object_four hw
      apply listen_for_me_raises_of_found tp _ bound _ _ _
      rw [hded, htpl]
      exact hf
  · intro hprt0 hhead
    have hded : deduce_missing_values
        ⟨AF_INET, stype, tname, 0, none, none, none⟩ =
        ⟨AF_INET, stype, tname, 0, none, none, none⟩ := rfl
    have htpl : convert_listen_description_into_find_tuple
        ⟨AF_INET, stype, tname, 0, none, none, none⟩ =
        [(.fam AF_INET, .autovivify), (.typ stype, .autovivify),
         (.nm tname, .suitableName), (.prt 0, .suitablePort none)] := rfl
    rcases c with _ | ⟨e0, crest⟩
    · simp at hhead
    · rcases e0 with ⟨k0, v0⟩
      have hfinder : runFinder (.suitablePort none) ((k0, v0) :: crest)
          (.prt 0) = some (k0, v0) := by
        simp [runFinder, List.find?]
      rcases v0 with i | sub
      · have h4 := yield_dict_path_last_finder_prox (.suitablePort none)
          hprt0 hfinder
        have hw := yield_dict_path_four .autovivify .autovivify .suitableName
          hfam htyp hnm h4
        have hf := find_cached_object_four hw
        apply listen_for_me_raises_of_found tp _ bound _ _ _
        rw [hded, htpl]
        exact hf
      · have h4 := yield_dict_path_last_finder_dict (.suitablePort none)
          hprt0 hfinder
        have hw := yield_dict_path_four .autovivify .autovivify .suitableName
          hfam htyp hnm h4
        have hf := find_cached_object_four hw
        apply listen_for_me_raises_of_found tp _ bound _ _ _
        rw [hded, htpl]
        exact hf

/-- Witness for C9's amended theorem: a cache holding one socket for
`('w', 5060)`; both the exact request for port 5060 and the wildcard request
for port 0 raise. -/
theorem listen_for_me_in_use_on_any_match_witness :
    (listen_for_me
      ⟨[(.fam AF_INET, .dict [(.typ 2, .dict [(.nm (.host "w"),
          .dict [(.prt 5060, .prox 3)])])])], [(3, 1)], 4⟩
      ⟨AF_INET, 2, .host "w", 5060, none, none, none⟩
      ⟨AF_INET, 2, .host "w", 5060, none, none, none⟩).2 =
      .error .socketInUseError ∧
    (listen_for_me
      ⟨[(.fam AF_INET, .dict [(.typ 2, .dict [(.nm (.host "w"),
          .dict [(.prt 5060, .prox 3)])])])], [(3, 1)], 4⟩
      ⟨AF_INET, 2, .host "w", 0, none, none, none⟩
      ⟨AF_INET, 2, .host "w", 5060, none, none, none⟩).2 =
      .error .socketInUseError :=
  ⟨(listen_for_me_in_use_on_any_match
      ⟨[(.fam AF_INET, .dict [(.typ 2, .dict [(.nm (.host "w"),
          .dict [(.prt 5060, .prox 3)])])])], [(3, 1)], 4⟩
      (TName.host "w") 2 5060 _ _ _ (CTree.prox 3)
      (TKey.prt 5060, CTree.prox 3)
      ⟨AF_INET, 2, .host "w", 5060, none, none, none⟩
      rfl rfl rfl).1 rfl,
   (listen_for_me_in_use_on_any_match
      ⟨[(.fam AF_INET, .dict [(.typ 2, .dict [(.nm (.host "w"),
          .dict [(.prt 5060, .prox 3)])])])], [(3, 1)], 4⟩
      (TName.host "w") 2 0 _ _ _ (CTree.prox 3)
      (TKey.prt 5060, CTree.prox 3)
      ⟨AF_INET, 2, .host "w", 5060, none, none, none⟩
      rfl rfl rfl).2 rfl rfl⟩

/-- Counterexample to **C9** as stated: after one successful listen on
`('1.2.3.4', 5060)`, a *wildcard* request for port 0 — for which no exact
(family, type, name, 0) entry exists in the cache — nonetheless raises
`SocketInUseError`, so the error is not restricted to exact non-wildcard
matches and the wildcard request cannot reuse or coexist with the cached
socket. -/
theorem listen_wildcard_raises_counterexample :
    (listen_for_me ⟨[], [], 0⟩
        ⟨AF_INET, SOCK_DGRAM, .host "1.2.3.4", 5060, none, none, none⟩
        ⟨AF_INET, SOCK_DGRAM, .host "1.2.3.4", 5060, none, none, none⟩).2 =
      .ok ⟨AF_INET, SOCK_DGRAM, .host "1.2.3.4", 5060, none, none, none⟩ ∧
    (listen_for_me ⟨[], [], 0⟩
        ⟨AF_INET, SOCK_DGRAM, .host "1.2.3.4", 5060, none, none, none⟩
        ⟨AF_INET, SOCK_DGRAM, .host "1.2.3.4", 5060, none, none,
          none⟩).1.listen_sockets =
      [(.fam AF_INET, .dict [(.typ SOCK_DGRAM, .dict [(.nm (.host "1.2.3.4"),
        .dict [(.prt 5060, .prox 0)])])])] ∧
    dictGet ([(TKey.prt 5060, CTree.prox 0)] : List (TKey × CTree))
      (TKey.prt 0) = none ∧
    (listen_for_me
        (listen_for_me ⟨[], [], 0⟩
          ⟨AF_INET, SOCK_DGRAM, .host "1.2.3.4", 5060, none, none, none⟩
          ⟨AF_INET, SOCK_DGRAM, .host "1.2.3.4", 5060, none, none, none⟩).1
        ⟨AF_INET, SOCK_DGRAM, .host "1.2.3.4", 0, none, none, none⟩
        ⟨AF_INET, SOCK_DGRAM, .host "1.2.3.4", 5060, none, none, none⟩).2 =
      .error .socketInUseError :=
  ⟨rfl, rfl, rfl, rfl⟩

/-- Counterexample to **C10** as stated: a lookup on the *empty* cache for
(AF_INET, SOCK_DGRAM, '"h"', 5060) fails to find a socket yet inserts an
empty family/type branch into the cache — a cache path now exists with no
live SocketHandle (or ancestor of one) under it, and the failed lookup did
not leave the cache unchanged. -/
theorem cache_lookup_mutates_on_miss_counterexample :
    find_cached_object [] (convert_listen_description_into_find_tuple
        ⟨AF_INET, SOCK_DGRAM, .host "h", 5060, none, none, none⟩) =
      .ok ([(.fam AF_INET, .dict [(.typ SOCK_DGRAM, .dict [])]),
            (.typ SOCK_DGRAM, .dict [])], none,
        [(.fam AF_INET, .dict [(.typ SOCK_DGRAM, .dict [])])]) ∧
    ([(.fam AF_INET, .dict [(.typ SOCK_DGRAM, .dict [])])] :
      List (TKey × CTree)) ≠ [] := by
  exact ⟨rfl, by simp⟩

/-- **C10 (amended).** The cache is not kept in exact correspondence with
live sockets.  (a) A lookup that fails still auto-inserts empty family and
type dictionaries into the cache.  (b) Releasing the last retain of a listen
socket deletes only the leaf cache entry; the emptied name/type/family
ancestor dictionaries stay behind (and the successful lookup that the
release performs does return the proxy stored at the full path). -/
theorem cache_mutation_and_leaf_pruning (stype p id nid : Nat) (s : String) :
    find_cached_object [] (convert_listen_description_into_find_tuple
        ⟨AF_INET, stype, .host s, p, none, none, none⟩) =
      .ok ([(.fam AF_INET, .dict [(.typ stype, .dict [])]),
            (.typ stype, .dict [])], none,
        [(.fam AF_INET, .dict [(.typ stype, .dict [])])]) ∧
    release_listen_address
        ⟨[(.fam AF_INET, .dict [(.typ stype, .dict [(.nm (.host s),
            .dict [(.prt p, .prox id)])])])], [(id, 1)], nid⟩
        ⟨AF_INET, stype, .host s, p, none, none, none⟩ =
      (⟨[(.fam AF_INET, .dict [(.typ stype, .dict [(.nm (.host s),
          .dict [])])])], [(id, 0)], nid⟩, .ok ()) := by
  constructor
  · have hy : yield_dict_path ([] : List (TKey × CTree))
        [(.fam AF_INET, .autovivify), (.typ stype, .autovivify),
         (.nm (.host s), .suitableName), (.prt p, .suitablePort none)] =
        .ok ([(.fam AF_INET, .dict [(.typ stype, .dict [])]),
              (.typ stype, .dict [])],
          [(.fam AF_INET, .dict [(.typ stype, .dict [])])]) := by
      simp [yield_dict_path, dictGet, dictSet, runFinder]
    show find_cached_object []
      [(.fam AF_INET, .autovivify), (.typ stype, .autovivify),
       (.nm (.host s), .suitableName), (.prt p, .suitablePort none)] = _
    rw [find_cached_object, hy]
    rfl
  · have h1 := dictGet_cons_self (TKey.fam AF_INET)
      (CTree.dict [(.typ stype, .dict [(.nm (.host s),
        .dict [(.prt p, .prox id)])])]) []
    have h2 := dictGet_cons_self (TKey.typ stype)
      (CTree.dict [(.nm (.host s), .dict [(.prt p, .prox id)])]) []
    have h3 := dictGet_cons_self (TKey.nm (.host s))
      (CTree.dict [(.prt p, .prox id)]) []
    have h4p := dictGet_cons_self (TKey.prt p) (CTree.prox id) []
    have h4 := yield_dict_path_last_prox (.suitablePort none) h4p
    have hw := yield_dict_path_four .autovivify .autovivify .suitableName
      h1 h2 h3 h4
    rw [dictSet_cons_self, dictSet_cons_self, dictSet_cons_self] at hw
    have hf := find_cached_object_four hw
    show release_listen_address _ _ = _
    rw [release_listen_address]
    rw [show convert_listen_description_into_find_tuple
        ⟨AF_INET, stype, .host s, p, none, none, none⟩ =
        [(.fam AF_INET, .autovivify), (.typ stype, .autovivify),
         (.nm (.host s), .suitableName), (.prt p, .suitablePort none)]
      from rfl]
    rw [hf]
    simp [delete_at, dictGet_cons_self, dictSet_cons_self, dictDel_cons_self,
      List.getLast?, List.dropLast]


end SipParty
